import Mathlib

/-!
Shallow embedding of src/src/map.c of allegro_tiled: tile lookup with
flip-flag decoding, multi-layer tile stacking, property lookup, registry
lookup and map teardown. Bytes are modelled as natural numbers (the raw
stored values 0 to 255); C bitwise operations become Nat.land / Nat.lor /
Nat.xor restricted to the low byte.
-/

/-- Modelled from the spec: the flag constants live in map.h, which is not
part of the excerpt.  The spec states that the three flip-flag bits occupy
the three most-significant bits of the stored byte, horizontal first. -/
def FLIPPED_HORIZONTALLY_FLAG : Nat := 0x80

/-- Modelled from the spec: vertical-flip bit, second-most-significant bit
of the stored byte (map.h is not part of the excerpt). -/
def FLIPPED_VERTICALLY_FLAG : Nat := 0x40

/-- Modelled from the spec: diagonal-flip bit, third-most-significant bit
of the stored byte (map.h is not part of the excerpt). -/
def FLIPPED_DIAGONALLY_FLAG : Nat := 0x20

/-- Property record {name, value} (TILED_PROPERTY). -/
structure TILED_PROPERTY where
  name : String
  value : String
  deriving DecidableEq

/-- Tile record: id, bitmap (opaque resource handle modelled as a number)
and the ordered property list (TILED_MAP_TILE). -/
structure TILED_MAP_TILE where
  id : Nat
  bitmap : Nat
  properties : List TILED_PROPERTY
  deriving DecidableEq

/-- Layer: name, width, height and the flat row-major byte grid
(TILED_MAP_LAYER). -/
structure TILED_MAP_LAYER where
  name : String
  width : Nat
  height : Nat
  data : List Nat
  deriving DecidableEq

/-- Tileset: name, source, owned tiles, shared bitmap (TILED_MAP_TILESET). -/
structure TILED_MAP_TILESET where
  name : String
  source : String
  tiles : List TILED_MAP_TILE
  bitmap : Nat
  deriving DecidableEq

/-- Object: name, type and ordered property list (TILED_OBJECT). -/
structure TILED_OBJECT where
  name : String
  type : String
  properties : List TILED_PROPERTY
  deriving DecidableEq

/-- Object group: name (TILED_OBJECT_GROUP, fields used by map.c only). -/
structure TILED_OBJECT_GROUP where
  name : String
  deriving DecidableEq

/-- Map aggregate (TILED_MAP).  The GHashTable tile registry is modelled as
an association list from numeric id to tile record. -/
structure TILED_MAP where
  orientation : String
  tilesets : List TILED_MAP_TILESET
  layers : List TILED_MAP_LAYER
  objects : List TILED_OBJECT
  object_groups : List TILED_OBJECT_GROUP
  tiles : List (Nat × TILED_MAP_TILE)
  backbuffer : Nat
  deriving DecidableEq

/-- lookup_tile (map.c lines 27 to 30): raw byte at row-major position
x + y*width.  Out-of-bounds access is undefined behaviour in C; the model
totalises it with default 0, and every claim about cell contents carries
in-bounds side conditions. -/
def lookup_tile (layer : TILED_MAP_LAYER) (x y : Nat) : Nat :=
  layer.data.getD (x + y * layer.width) 0

/-- The mask step of al_get_single_tile (map.c lines 38 to 40):
id &= ~(H|V|D), with the complement taken inside the byte. -/
def clear_flip_flags (raw : Nat) : Nat :=
  Nat.land raw
    (255 ^^^ (FLIPPED_HORIZONTALLY_FLAG ||| FLIPPED_VERTICALLY_FLAG ||| FLIPPED_DIAGONALLY_FLAG))

/-- al_get_single_tile (map.c lines 35 to 43): lookup_tile with the three
special bits zeroed out. -/
def al_get_single_tile (layer : TILED_MAP_LAYER) (x y : Nat) : Nat :=
  clear_flip_flags (lookup_tile layer x y)

/-- The sentinel (char)-1 written after the per-layer ids (map.c line 54),
as a byte value. -/
def al_get_tiles_sentinel : Nat := 255

/-- Size in bytes of the buffer allocated by al_get_tiles (map.c line 53):
malloc(sizeof(char) * layer_count). -/
def al_get_tiles_alloc_size (m : TILED_MAP) : Nat := m.layers.length

/-- Index at which al_get_tiles stores the sentinel (map.c line 54):
tiles[layer_count] = (char)-1. -/
def al_get_tiles_sentinel_write_index (m : TILED_MAP) : Nat := m.layers.length

/-- Logical content of the buffer produced by al_get_tiles (map.c lines
50 to 66): one decoded id per layer in map order, then the sentinel. -/
def al_get_tiles (m : TILED_MAP) (x y : Nat) : List Nat :=
  (m.layers.map fun layer => al_get_single_tile layer x y) ++ [al_get_tiles_sentinel]

/-- flipped_horizontally (map.c lines 71 to 74): raw byte AND the
horizontal flag, converted to bool (nonzero means true). -/
def flipped_horizontally (layer : TILED_MAP_LAYER) (x y : Nat) : Bool :=
  Nat.land (lookup_tile layer x y) FLIPPED_HORIZONTALLY_FLAG != 0

/-- flipped_vertically (map.c lines 79 to 82): raw byte AND the vertical
flag, converted to bool (nonzero means true). -/
def flipped_vertically (layer : TILED_MAP_LAYER) (x y : Nat) : Bool :=
  Nat.land (lookup_tile layer x y) FLIPPED_VERTICALLY_FLAG != 0

/-- GLib g_hash_table_lookup on the modelled registry: the value stored
under the key, or none when the key is absent. -/
def g_hash_table_lookup (table : List (Nat × TILED_MAP_TILE)) (key : Nat) :
    Option TILED_MAP_TILE :=
  (table.find? fun kv => kv.1 == key).map fun kv => kv.2

/-- al_get_tile_for_id (map.c lines 87 to 94): NULL for id 0, otherwise a
registry lookup by id. -/
def al_get_tile_for_id (m : TILED_MAP) (id : Nat) : Option TILED_MAP_TILE :=
  if id = 0 then none
  else g_hash_table_lookup m.tiles id

/-- The property-list scan loop of al_get_tile_property (map.c lines
102 to 110): first property whose name compares equal wins, default on
exhaustion. -/
def al_get_tile_property_scan (name dflt : String) : List TILED_PROPERTY → String
  | [] => dflt
  | prop :: rest =>
    if prop.name = name then prop.value else al_get_tile_property_scan name dflt rest

/-- al_get_tile_property (map.c lines 99 to 114): NULL tile returns the
default; otherwise scan the property list. -/
def al_get_tile_property (tile : Option TILED_MAP_TILE) (name dflt : String) : String :=
  match tile with
  | some t => al_get_tile_property_scan name dflt t.properties
  | none => dflt

/-- The property-list scan loop of al_get_object_property (map.c lines
122 to 130), duplicated in the source. -/
def al_get_object_property_scan (name dflt : String) : List TILED_PROPERTY → String
  | [] => dflt
  | prop :: rest =>
    if prop.name = name then prop.value else al_get_object_property_scan name dflt rest

/-- al_get_object_property (map.c lines 119 to 134): NULL object returns
the default; otherwise scan the property list. -/
def al_get_object_property (object : Option TILED_OBJECT) (name dflt : String) : String :=
  match object with
  | some o => al_get_object_property_scan name dflt o.properties
  | none => dflt

/-- One observable release action during teardown.  Each al_free /
al_destroy_bitmap / free call in map.c lines 136 to 199 is recorded as one
event, so double frees show up as repeated events. -/
inductive FreeEvent where
  | freeStr (s : String)
  | freeProperty (p : TILED_PROPERTY)
  | freeBitmap (b : Nat)
  | freeTile (t : TILED_MAP_TILE)
  | freeTilesetRecord (ts : TILED_MAP_TILESET)
  | freeLayerData (d : List Nat)
  | freeLayerRecord (l : TILED_MAP_LAYER)
  | freeObjectRecord (o : TILED_OBJECT)
  | freeGroupRecord (g : TILED_OBJECT_GROUP)
  | freeMapRecord (m : TILED_MAP)
  deriving DecidableEq

/-- Model of _al_free_property (map.c lines 136 to 142): frees name, value, record. -/
def _al_free_property (p : TILED_PROPERTY) : List FreeEvent :=
  [.freeStr p.name, .freeStr p.value, .freeProperty p]

/-- Model of _al_free_tile (map.c lines 144 to 150): frees the property list, the
bitmap, then the tile record. -/
def _al_free_tile (t : TILED_MAP_TILE) : List FreeEvent :=
  t.properties.flatMap _al_free_property ++ [.freeBitmap t.bitmap, .freeTile t]

/-- Model of _al_free_tileset (map.c lines 152 to 160): frees name, source, every
owned tile, the bitmap, then the tileset record. -/
def _al_free_tileset (ts : TILED_MAP_TILESET) : List FreeEvent :=
  [.freeStr ts.name, .freeStr ts.source]
    ++ ts.tiles.flatMap _al_free_tile
    ++ [.freeBitmap ts.bitmap, .freeTilesetRecord ts]

/-- Model of _al_free_layer (map.c lines 162 to 168): frees name, data, record. -/
def _al_free_layer (l : TILED_MAP_LAYER) : List FreeEvent :=
  [.freeStr l.name, .freeLayerData l.data, .freeLayerRecord l]

/-- Model of _al_free_object (map.c lines 170 to 177): frees the property list,
name, type, then the object record. -/
def _al_free_object (o : TILED_OBJECT) : List FreeEvent :=
  o.properties.flatMap _al_free_property
    ++ [.freeStr o.name, .freeStr o.type, .freeObjectRecord o]

/-- Model of _al_free_object_group (map.c lines 179 to 184): frees name, record. -/
def _al_free_object_group (g : TILED_OBJECT_GROUP) : List FreeEvent :=
  [.freeStr g.name, .freeGroupRecord g]

/-- Modelled from the spec: g_hash_table_unref is a GLib call (external to
the excerpt); the spec states the registry is torn down as a non-owning
index, a reference release that frees none of the stored tile values. -/
def g_hash_table_unref (_table : List (Nat × TILED_MAP_TILE)) : List FreeEvent :=
  []

/-- al_free_map (map.c lines 189 to 199): orientation, tilesets, layers,
objects, object groups, registry unref, backbuffer, map record. -/
def al_free_map (m : TILED_MAP) : List FreeEvent :=
  [.freeStr m.orientation]
    ++ m.tilesets.flatMap _al_free_tileset
    ++ m.layers.flatMap _al_free_layer
    ++ m.objects.flatMap _al_free_object
    ++ m.object_groups.flatMap _al_free_object_group
    ++ g_hash_table_unref m.tiles
    ++ [.freeBitmap m.backbuffer, .freeMapRecord m]

/-- Layer construction for the round-trip claim: an external parser fills
the record with a row-major grid. -/
def mkLayer (name : String) (width height : Nat) (grid : List Nat) : TILED_MAP_LAYER :=
  { name := name, width := width, height := height, data := grid }

/-! ## Helper lemmas -/

theorem clear_flip_flags_eq_land_31 (raw : Nat) :
    clear_flip_flags raw = Nat.land raw 31 := by
  have h : (255 ^^^ (FLIPPED_HORIZONTALLY_FLAG
      ||| FLIPPED_VERTICALLY_FLAG ||| FLIPPED_DIAGONALLY_FLAG)) = 31 := by decide
  unfold clear_flip_flags
  rw [h]

theorem land_two_pow_bne_zero (raw i : Nat) :
    (Nat.land raw (2 ^ i) != 0) = raw.testBit i := by
  have h : raw &&& 2 ^ i = (raw.testBit i).toNat * 2 ^ i := Nat.and_two_pow raw i
  show (raw &&& 2 ^ i != 0) = raw.testBit i
  rw [h]
  cases raw.testBit i <;> simp [Nat.pos_pow_of_pos i (by decide : 0 < 2)]

theorem land_31_testBit (raw i : Nat) :
    (Nat.land raw 31).testBit i = ((raw.testBit i) && (Nat.testBit 31 i)) :=
  Nat.testBit_and raw 31 i

theorem al_get_single_tile_testBit (l : TILED_MAP_LAYER) (x y i : Nat) :
    (al_get_single_tile l x y).testBit i
      = ((lookup_tile l x y).testBit i && Nat.testBit 31 i) := by
  show (clear_flip_flags (lookup_tile l x y)).testBit i = _
  rw [clear_flip_flags_eq_land_31]
  exact land_31_testBit _ i

/-! ## Claims -/

/-- Claim C3: for every layer and position, al_get_single_tile equals the
raw byte with exactly the three high flip-flag bits cleared: it equals
raw AND 0x1F, bits 7, 6, 5 of the result are clear, and bits 4 down to 0
are exactly those of the raw byte. -/
theorem al_get_single_tile_clears_exactly_high_flag_bits
    (l : TILED_MAP_LAYER) (x y : Nat) :
    al_get_single_tile l x y = Nat.land (lookup_tile l x y) 0x1F
    ∧ (al_get_single_tile l x y).testBit 7 = false
    ∧ (al_get_single_tile l x y).testBit 6 = false
    ∧ (al_get_single_tile l x y).testBit 5 = false
    ∧ (al_get_single_tile l x y).testBit 4 = (lookup_tile l x y).testBit 4
    ∧ (al_get_single_tile l x y).testBit 3 = (lookup_tile l x y).testBit 3
    ∧ (al_get_single_tile l x y).testBit 2 = (lookup_tile l x y).testBit 2
    ∧ (al_get_single_tile l x y).testBit 1 = (lookup_tile l x y).testBit 1
    ∧ (al_get_single_tile l x y).testBit 0 = (lookup_tile l x y).testBit 0 :=
  ⟨clear_flip_flags_eq_land_31 (lookup_tile l x y),
   by rw [al_get_single_tile_testBit, show Nat.testBit 31 7 = false from by decide]; simp,
   by rw [al_get_single_tile_testBit, show Nat.testBit 31 6 = false from by decide]; simp,
   by rw [al_get_single_tile_testBit, show Nat.testBit 31 5 = false from by decide]; simp,
   by rw [al_get_single_tile_testBit, show Nat.testBit 31 4 = true from by decide]; simp,
   by rw [al_get_single_tile_testBit, show Nat.testBit 31 3 = true from by decide]; simp,
   by rw [al_get_single_tile_testBit, show Nat.testBit 31 2 = true from by decide]; simp,
   by rw [al_get_single_tile_testBit, show Nat.testBit 31 1 = true from by decide]; simp,
   by rw [al_get_single_tile_testBit, show Nat.testBit 31 0 = true from by decide]; simp⟩

/-- Claim C4: a masked tile id is at most 31, hence a non-negative byte
value always distinct from the sentinel byte 255 ((char)-1) that
terminates the al_get_tiles sequence. -/
theorem al_get_single_tile_ne_sentinel (l : TILED_MAP_LAYER) (x y : Nat) :
    al_get_single_tile l x y ≤ 31
    ∧ al_get_single_tile l x y ≠ al_get_tiles_sentinel := by
  have h : al_get_single_tile l x y = Nat.land (lookup_tile l x y) 31 :=
    clear_flip_flags_eq_land_31 (lookup_tile l x y)
  have hlt : Nat.land (lookup_tile l x y) 31 < 32 :=
    Nat.and_lt_two_pow (lookup_tile l x y) (show (31 : Nat) < 2 ^ 5 from by decide)
  have hs : al_get_tiles_sentinel = 255 := rfl
  omega

/-- Claim C7: flipped_horizontally is true exactly when bit 7 of the raw
byte is set, and flipped_vertically exactly when bit 6 is set; being equal
to a single testBit, each is independent of the other flag bits and of the
masked id bits. -/
theorem flipped_flags_test_exactly_their_bit (l : TILED_MAP_LAYER) (x y : Nat) :
    flipped_horizontally l x y = (lookup_tile l x y).testBit 7
    ∧ flipped_vertically l x y = (lookup_tile l x y).testBit 6 := by
  constructor
  · show (Nat.land (lookup_tile l x y) FLIPPED_HORIZONTALLY_FLAG != 0) = _
    rw [show FLIPPED_HORIZONTALLY_FLAG = 2 ^ 7 from by decide]
    exact land_two_pow_bne_zero _ 7
  · show (Nat.land (lookup_tile l x y) FLIPPED_VERTICALLY_FLAG != 0) = _
    rw [show FLIPPED_VERTICALLY_FLAG = 2 ^ 6 from by decide]
    exact land_two_pow_bne_zero _ 6

/-- Claim C10: masking is idempotent and its image is flag-free: clearing
the flags of an already decoded id returns it unchanged, all three flag
bits of a decoded id are clear, and the flip-flag bit tests used by
flipped_horizontally / flipped_vertically come out zero on a decoded id. -/
theorem al_get_single_tile_mask_idempotent_flag_free
    (l : TILED_MAP_LAYER) (x y : Nat) :
    clear_flip_flags (al_get_single_tile l x y) = al_get_single_tile l x y
    ∧ (al_get_single_tile l x y).testBit 7 = false
    ∧ (al_get_single_tile l x y).testBit 6 = false
    ∧ (al_get_single_tile l x y).testBit 5 = false
    ∧ Nat.land (al_get_single_tile l x y) FLIPPED_HORIZONTALLY_FLAG = 0
    ∧ Nat.land (al_get_single_tile l x y) FLIPPED_VERTICALLY_FLAG = 0
    ∧ Nat.land (al_get_single_tile l x y) FLIPPED_DIAGONALLY_FLAG = 0 := by
  have h : al_get_single_tile l x y = Nat.land (lookup_tile l x y) 31 :=
    clear_flip_flags_eq_land_31 (lookup_tile l x y)
  refine ⟨?_, ?_, ?_, ?_, ?_, ?_, ?_⟩
  · rw [clear_flip_flags_eq_land_31, h]
    show ((lookup_tile l x y) &&& 31) &&& 31 = (lookup_tile l x y) &&& 31
    rw [Nat.and_assoc, show ((31 : Nat) &&& 31) = 31 from by decide]
  · rw [al_get_single_tile_testBit, show Nat.testBit 31 7 = false from by decide]; simp
  · rw [al_get_single_tile_testBit, show Nat.testBit 31 6 = false from by decide]; simp
  · rw [al_get_single_tile_testBit, show Nat.testBit 31 5 = false from by decide]; simp
  · rw [h]
    show ((lookup_tile l x y) &&& 31) &&& FLIPPED_HORIZONTALLY_FLAG = 0
    rw [Nat.and_assoc, show (31 &&& FLIPPED_HORIZONTALLY_FLAG) = 0 from by decide,
      Nat.and_zero]
  · rw [h]
    show ((lookup_tile l x y) &&& 31) &&& FLIPPED_VERTICALLY_FLAG = 0
    rw [Nat.and_assoc, show (31 &&& FLIPPED_VERTICALLY_FLAG) = 0 from by decide,
      Nat.and_zero]
  · rw [h]
    show ((lookup_tile l x y) &&& 31) &&& FLIPPED_DIAGONALLY_FLAG = 0
    rw [Nat.and_assoc, show (31 &&& FLIPPED_DIAGONALLY_FLAG) = 0 from by decide,
      Nat.and_zero]

theorem al_get_tile_property_scan_eq_find (name dflt : String)
    (props : List TILED_PROPERTY) :
    al_get_tile_property_scan name dflt props
      = ((props.find? fun p => p.name == name).map fun p => p.value).getD dflt := by
  induction props with
  | nil => rfl
  | cons p rest ih =>
    by_cases h : p.name = name
    · simp [al_get_tile_property_scan, List.find?_cons, h]
    · simp [al_get_tile_property_scan, List.find?_cons, h, ih]

theorem property_scan_eq (name dflt : String) (props : List TILED_PROPERTY) :
    al_get_tile_property_scan name dflt props
      = al_get_object_property_scan name dflt props := by
  induction props with
  | nil => rfl
  | cons p rest ih =>
    simp [al_get_tile_property_scan, al_get_object_property_scan, ih]

/-- Claim C5: al_get_tile_property returns the default unmodified on an
absent tile, and otherwise the value of the first property (in list order,
so first match wins on duplicates) whose name equals the queried name,
falling back to the default when none matches. -/
theorem al_get_tile_property_first_match_spec
    (tile : Option TILED_MAP_TILE) (name dflt : String) :
    al_get_tile_property tile name dflt
      = ((tile.bind fun t => t.properties.find? fun p => p.name == name).map
          fun p => p.value).getD dflt := by
  cases tile with
  | none => rfl
  | some t =>
    simp [al_get_tile_property, Option.bind, al_get_tile_property_scan_eq_find]

/-- Claim C9: al_get_tile_property and al_get_object_property implement
the same contract: on a tile and an object carrying the same property
list they return identical results, and both return the default on an
absent argument. -/
theorem tile_and_object_property_same_contract
    (props : List TILED_PROPERTY) (name dflt : String)
    (id bitmap : Nat) (oname otype : String) :
    al_get_tile_property (some ⟨id, bitmap, props⟩) name dflt
      = al_get_object_property (some ⟨oname, otype, props⟩) name dflt
    ∧ al_get_tile_property none name dflt = al_get_object_property none name dflt :=
  ⟨property_scan_eq name dflt props, rfl⟩

/-- Claim C6: al_get_tile_for_id returns none for id 0 without consulting
the registry, equals the registry lookup for every nonzero id, and is
none whenever the id is not a registry key. -/
theorem al_get_tile_for_id_spec (m : TILED_MAP) (id : Nat) :
    (id = 0 → al_get_tile_for_id m id = none)
    ∧ (id ≠ 0 → al_get_tile_for_id m id = g_hash_table_lookup m.tiles id)
    ∧ ((∀ kv ∈ m.tiles, kv.1 ≠ id) → al_get_tile_for_id m id = none) := by
  refine ⟨fun h => by simp [al_get_tile_for_id, h],
          fun h => by simp [al_get_tile_for_id, h],
          fun h => ?_⟩
  unfold al_get_tile_for_id
  by_cases h0 : id = 0
  · simp [h0]
  · simp only [h0, if_false]
    unfold g_hash_table_lookup
    rw [List.find?_eq_none.mpr]
    · rfl
    · intro kv hkv
      simpa using h kv hkv

theorem count_freeTile_flatMap_property (t : TILED_MAP_TILE)
    (props : List TILED_PROPERTY) :
    (props.flatMap _al_free_property).count (FreeEvent.freeTile t) = 0 := by
  induction props with
  | nil => rfl
  | cons p rest ih =>
    simp [List.flatMap_cons, _al_free_property, List.count_append, List.count_cons, ih]

theorem count_freeTile_free_tile (t u : TILED_MAP_TILE) :
    (_al_free_tile u).count (FreeEvent.freeTile t) = if u = t then 1 else 0 := by
  unfold _al_free_tile
  rw [List.count_append, count_freeTile_flatMap_property]
  by_cases h : u = t <;> simp [List.count_cons, h]

theorem count_freeTile_flatMap_tiles (t : TILED_MAP_TILE)
    (tiles : List TILED_MAP_TILE) :
    (tiles.flatMap _al_free_tile).count (FreeEvent.freeTile t) = tiles.count t := by
  induction tiles with
  | nil => rfl
  | cons u rest ih =>
    rw [List.flatMap_cons, List.count_append, count_freeTile_free_tile, ih,
      List.count_cons]
    by_cases h : u = t
    · simp [h]
      omega
    · simp [h]

theorem count_freeTile_free_tileset (t : TILED_MAP_TILE)
    (ts : TILED_MAP_TILESET) :
    (_al_free_tileset ts).count (FreeEvent.freeTile t) = ts.tiles.count t := by
  unfold _al_free_tileset
  simp [List.count_append, List.count_cons, count_freeTile_flatMap_tiles]

theorem count_freeTile_flatMap_tilesets (t : TILED_MAP_TILE)
    (tss : List TILED_MAP_TILESET) :
    (tss.flatMap _al_free_tileset).count (FreeEvent.freeTile t)
      = (tss.flatMap fun ts => ts.tiles).count t := by
  induction tss with
  | nil => rfl
  | cons ts rest ih =>
    rw [List.flatMap_cons, List.flatMap_cons, List.count_append, List.count_append,
      count_freeTile_free_tileset, ih]

theorem count_freeTile_flatMap_layers (t : TILED_MAP_TILE)
    (ls : List TILED_MAP_LAYER) :
    (ls.flatMap _al_free_layer).count (FreeEvent.freeTile t) = 0 := by
  induction ls with
  | nil => rfl
  | cons l rest ih =>
    simp [List.flatMap_cons, _al_free_layer, List.count_append, List.count_cons, ih]

theorem count_freeTile_flatMap_objects (t : TILED_MAP_TILE)
    (os : List TILED_OBJECT) :
    (os.flatMap _al_free_object).count (FreeEvent.freeTile t) = 0 := by
  induction os with
  | nil => rfl
  | cons o rest ih =>
    rw [List.flatMap_cons, List.count_append, ih]
    unfold _al_free_object
    rw [List.count_append, count_freeTile_flatMap_property t o.properties]
    simp [List.count_cons]

theorem count_freeTile_flatMap_groups (t : TILED_MAP_TILE)
    (gs : List TILED_OBJECT_GROUP) :
    (gs.flatMap _al_free_object_group).count (FreeEvent.freeTile t) = 0 := by
  induction gs with
  | nil => rfl
  | cons g rest ih =>
    simp [List.flatMap_cons, _al_free_object_group, List.count_append,
      List.count_cons, ih]

/-- Claim C2: teardown frees each tileset-owned tile exactly once.  For a
tile t owned exactly once across the tilesets of a map (the ownership
invariant), the teardown trace contains exactly one free event for t, and
the registry unref step contributes none, whatever the registry holds; in
particular a tile reachable both from a tileset and from the registry is
never freed twice. -/
theorem al_free_map_frees_each_tile_exactly_once (m : TILED_MAP)
    (t : TILED_MAP_TILE)
    (h : (m.tilesets.flatMap fun ts => ts.tiles).count t = 1) :
    (al_free_map m).count (FreeEvent.freeTile t) = 1
    ∧ (g_hash_table_unref m.tiles).count (FreeEvent.freeTile t) = 0 := by
  constructor
  · simp [al_free_map, List.count_append, List.count_cons,
      count_freeTile_flatMap_tilesets, count_freeTile_flatMap_layers,
      count_freeTile_flatMap_objects, count_freeTile_flatMap_groups,
      g_hash_table_unref, h]
  · rfl

/-- Concrete map: two tilesets owning one tile each, both tiles carrying
tile id 1 (distinct records), one 1x1 layer, and a registry referencing
the first tile. -/
def tileA : TILED_MAP_TILE :=
  { id := 1, bitmap := 10, properties := [] }

/-- Second concrete tile record with the same numeric id as tileA. -/
def tileB : TILED_MAP_TILE :=
  { id := 1, bitmap := 20, properties := [] }

/-- Concrete example map used to evaluate the theorems on closed input. -/
def exampleMap : TILED_MAP :=
  { orientation := "orthogonal"
    tilesets := [{ name := "ts1", source := "a.png", tiles := [tileA], bitmap := 100 },
                 { name := "ts2", source := "b.png", tiles := [tileB], bitmap := 200 }]
    layers := [{ name := "ground", width := 1, height := 1, data := [3] }]
    objects := []
    object_groups := []
    tiles := [(1, tileA)]
    backbuffer := 0 }

/-- Claim C1 (refuting the in-bounds part): al_get_tiles on a map with one
layer allocates layer_count = 1 bytes (map.c line 53) yet stores the
sentinel at index layer_count = 1 (map.c line 54), one past the end of the
allocation, even though the produced sequence logically needs
layer_count + 1 bytes. -/
theorem al_get_tiles_sentinel_write_outside_allocation :
    al_get_tiles_alloc_size exampleMap = 1
    ∧ al_get_tiles_sentinel_write_index exampleMap = 1
    ∧ ¬ (al_get_tiles_sentinel_write_index exampleMap
          < al_get_tiles_alloc_size exampleMap)
    ∧ (al_get_tiles exampleMap 0 0).length = al_get_tiles_alloc_size exampleMap + 1 := by
  refine ⟨rfl, rfl, by decide, rfl⟩

/-- Witness for claim C2 at the concrete map: tileA is owned once across
the tilesets, is also referenced by the registry, and the teardown trace
frees it exactly once. -/
theorem al_free_map_frees_each_tile_exactly_once_witness :
    (exampleMap.tilesets.flatMap fun ts => ts.tiles).count tileA = 1
    ∧ ((al_free_map exampleMap).count (FreeEvent.freeTile tileA) = 1
        ∧ (g_hash_table_unref exampleMap.tiles).count (FreeEvent.freeTile tileA) = 0) :=
  ⟨by decide, al_free_map_frees_each_tile_exactly_once exampleMap tileA (by decide)⟩

/-- Witness for claim C6 at the concrete map: id 0 yields none, a nonzero
registered id yields the registry lookup, and an unregistered id yields
none. -/
theorem al_get_tile_for_id_spec_witness :
    al_get_tile_for_id exampleMap 0 = none
    ∧ al_get_tile_for_id exampleMap 1 = g_hash_table_lookup exampleMap.tiles 1
    ∧ al_get_tile_for_id exampleMap 2 = none :=
  ⟨(al_get_tile_for_id_spec exampleMap 0).1 rfl,
   (al_get_tile_for_id_spec exampleMap 1).2.1 (by decide),
   (al_get_tile_for_id_spec exampleMap 2).2.2 (by decide)⟩

/-- Claim C8: a layer built from a row-major grid of flag-free ids (all
below 32, so no flip bit is set) reproduces, through al_get_single_tile,
exactly the stored id at every in-bounds position. -/
theorem al_get_single_tile_round_trip (name : String) (W H : Nat)
    (grid : List Nat) (hlen : grid.length = W * H)
    (hval : ∀ v ∈ grid, v < 32)
    (x y : Nat) (hx : x < W) (hy : y < H) :
    al_get_single_tile (mkLayer name W H grid) x y = grid.getD (x + y * W) 0 := by
  have hidx : x + y * W < grid.length := by
    rw [hlen]
    calc x + y * W < W + y * W := by omega
    _ = (y + 1) * W := by ring
    _ ≤ H * W := Nat.mul_le_mul_right W (by omega)
    _ = W * H := Nat.mul_comm H W
  have hlu : lookup_tile (mkLayer name W H grid) x y = grid.getD (x + y * W) 0 := rfl
  have hget : grid.getD (x + y * W) 0 = grid.get ⟨x + y * W, hidx⟩ := by
    rw [List.getD_eq_getElem?_getD, List.getElem?_eq_getElem hidx]
    rfl
  have hv : grid.getD (x + y * W) 0 < 32 := by
    rw [hget]
    exact hval _ (List.get_mem grid (x + y * W) hidx)
  show clear_flip_flags (lookup_tile (mkLayer name W H grid) x y) = _
  rw [clear_flip_flags_eq_land_31, hlu]
  show grid.getD (x + y * W) 0 &&& 31 = grid.getD (x + y * W) 0
  rw [show (31 : Nat) = 2 ^ 5 - 1 from rfl]
  exact Nat.and_pow_two_sub_one_of_lt_two_pow hv

/-- Witness for claim C8 at a concrete 3 by 2 grid: position (1,1) reads
back the stored id at row-major index 1 + 1*3 = 4. -/
theorem al_get_single_tile_round_trip_witness :
    al_get_single_tile (mkLayer "ground" 3 2 [1, 2, 3, 4, 5, 6]) 1 1
      = List.getD [1, 2, 3, 4, 5, 6] (1 + 1 * 3) 0 :=
  al_get_single_tile_round_trip "ground" 3 2 [1, 2, 3, 4, 5, 6] (by decide)
    (by decide) 1 1 (by decide) (by decide)
